import Mathlib

/-!
Verification of the Weixin article pipeline orchestrator
(`src/services/weixin-article.workflow.ts`).

The orchestrator is embedded shallowly: every collaborator (scraper,
ranker, summarizer, title generator, image generator, publisher,
renderer, config and source providers, the DeepSeek balance query) is an
oracle field of an `Env` record returning `Except String _`, and the
side effects the spec talks about (notifications, the success/failed
counters, per-collaborator call counts) are threaded explicitly through
a `RunState` record.  JavaScript `number` scores are modelled as `ℚ`;
an unset (`undefined`) score or keyword list is `Option.none`.  The JS
array sort with comparator `b.score - a.score` is modelled as a stable
insertion sort in which a pair involving an unscored item compares as
equal (the comparator yields `NaN`, which ECMAScript's SortCompare
coerces to `+0`).
-/

set_option maxRecDepth 4000
set_option linter.unnecessarySeqFocus false

inductive NotifyLevel where
  | info
  | warning
  | error
  | success
deriving DecidableEq, Repr

structure Notification where
  level : NotifyLevel
  title : String
  body : String
deriving DecidableEq, Repr

/-- The `metadata` sub-record of a scraped item; only the keyword list is
touched by the orchestrator.  `none` models a JS `undefined` list. -/
structure Metadata where
  keywords : Option (List String)
deriving DecidableEq, Repr

/-- Model of `ScrapedContent`: one content item, as used by the workflow. -/
structure Content where
  id : String
  title : String
  content : String
  url : String
  publishDate : String
  metadata : Metadata
  media : List String
  score : Option ℚ
deriving DecidableEq, Repr

/-- Model of `RankResult`: identifier plus numeric score. -/
structure RankResult where
  id : String
  score : ℚ
deriving DecidableEq, Repr

/-- Result of `summarizer.summarize`. -/
structure Summary where
  title : String
  content : String
  keywords : List String
deriving DecidableEq, Repr

/-- Request record sent to the image generator (lines 241-247). -/
structure ImageRequest where
  title : String
  sub_title : String
  prompt_text_zh : String
  generate_mode : String
  generate_num : Nat
deriving DecidableEq, Repr

/-- Result of `publisher.publish`. -/
structure PublishResult where
  status : String
deriving DecidableEq, Repr

/-- The collaborator environment of one run: every external call of
`WeixinWorkflow.process`, as an oracle. -/
structure Env where
  balance : Except String ℚ
  firecrawlSources : List String
  twitterSources : List String
  scrapeFire : String → Except String (List Content)
  scrapeTwitter : String → Except String (List Content)
  rank : List Content → Except String (List RankResult)
  articleNum : Option Nat
  summarize : Content → Except String Summary
  generateTitle : String → Except String String
  dateStr : String
  generateImage : ImageRequest → Except String String
  uploadImage : String → Except String String
  render : List Content → Except String String
  publish : String → String → String → String → Except String PublishResult

/-- Observable run state: the `stats` counters of the class, the
notifications sent, one call counter per collaborator, and the strings
handed to the title generator and the publisher. -/
structure RunState where
  success : Nat
  failed : Nat
  contents : Nat
  scrapeCalls : Nat
  rankCalls : Nat
  summarizeCalls : Nat
  generateTitleCalls : Nat
  imageCalls : Nat
  uploadCalls : Nat
  renderCalls : Nat
  publishCalls : Nat
  notifications : List Notification
  titleInput : Option String
  publishedTitle : Option String
deriving DecidableEq, Repr

deriving instance DecidableEq for Except

def initState : RunState :=
  ⟨0, 0, 0, 0, 0, 0, 0, 0, 0, 0, 0, [], none, none⟩

def addNotif (s : RunState) (n : Notification) : RunState :=
  { s with notifications := s.notifications ++ [n] }

/-! ## Filter / sort / truncate (lines 167-190) -/

/-- The body of the filter callback (lines 171-180): look the item's id
up in the rank results; on a hit, overwrite the score and keep the item,
otherwise drop it. -/
def applyRank (ranked : List RankResult) (c : Content) : Option Content :=
  match ranked.find? (fun r => r.id == c.id) with
  | some r => some { c with score := some r.score }
  | none => none

def filterByRank (ranked : List RankResult) (l : List Content) : List Content :=
  l.filterMap (applyRank ranked)

/-- Lines 169-184: the filter runs only when the rank results are
non-empty; otherwise the list is left unchanged. -/
def filterStep (ranked : List RankResult) (l : List Content) : List Content :=
  if ranked.isEmpty then l else filterByRank ranked l

/-- Spec-side definition, from the words of §4.3: "keep only items whose
identifier appears in the rank results; for each kept item, set its
score to the matched result's score; drop every other item." -/
def innerJoinSpec (ranked : List RankResult) (l : List Content) : List Content :=
  (l.filter (fun c => ranked.any (fun r => r.id == c.id))).map (fun c =>
    match ranked.find? (fun r => r.id == c.id) with
    | some r => { c with score := some r.score }
    | none => c)

/-- Comparator of line 187, `(a, b) => b.score - a.score`, as a strict
"a must come before b" test: true only when both items are scored and
`a`'s score is strictly greater.  A comparison involving an unscored
item yields `NaN`, which SortCompare treats as `+0` (equal). -/
def scoreGt (a b : Content) : Bool :=
  match a.score, b.score with
  | some x, some y => decide (y < x)
  | _, _ => false

/-- Stable descending insertion: `c` is placed after every earlier item
it does not strictly beat. -/
def insertDesc (c : Content) : List Content → List Content
  | [] => [c]
  | x :: xs => if scoreGt c x then c :: x :: xs else x :: insertDesc c xs

/-- Line 187, `allContents.sort((a, b) => b.score - a.score)`: stable
sort, descending by score. -/
def sortStep (l : List Content) : List Content :=
  l.foldl (fun acc c => insertDesc c acc) []

/-- Line 190, `allContents.slice(0, ARTICLE_NUM)`: with `ARTICLE_NUM`
undefined, `slice(0, undefined)` returns the whole list. -/
def truncStep (n : Option Nat) (l : List Content) : List Content :=
  match n with
  | some k => l.take k
  | none => l

/-- The items of the sorted list that did NOT make it into the slice;
`topContents` of line 190 aliases the records of `allContents`, so
after enrichment the full list is `enriched top ++ restStep`. -/
def restStep (n : Option Nat) (l : List Content) : List Content :=
  match n with
  | some k => l.drop k
  | none => []

/-! ## Scrape stage (lines 47-68 and 116-146) -/

/-- Model of `scrapeSource` (lines 47-68): count the call, then either count a
success and return the items, or count a failure, send the warning
notification, and contribute no items. -/
def scrapeSource (scrape : String → Except String (List Content))
    (typ ident : String) (s : RunState) : RunState × List Content :=
  let s := { s with scrapeCalls := s.scrapeCalls + 1 }
  match scrape ident with
  | Except.ok cs => ({ s with success := s.success + 1 }, cs)
  | Except.error m =>
      (addNotif { s with failed := s.failed + 1 }
        ⟨NotifyLevel.warning, typ ++ "抓取失败", "源: " ++ ident ++ "\n错误: " ++ m⟩, [])

/-- One `for (const source of ...)` loop (lines 123-131 / 137-145):
strictly sequential, items appended to the accumulator. -/
def scrapeList (scrape : String → Except String (List Content)) (typ : String) :
    List String → RunState → List Content → RunState × List Content
  | [], s, acc => (s, acc)
  | ident :: rest, s, acc =>
    let p := scrapeSource scrape typ ident s
    scrapeList scrape typ rest p.1 (acc ++ p.2)

/-- Lines 116-146: FireCrawl sources first, then Twitter sources. -/
def scrapeStage (env : Env) (s : RunState) : RunState × List Content :=
  let p := scrapeList env.scrapeFire "FireCrawl" env.firecrawlSources s []
  scrapeList env.scrapeTwitter "Twitter" env.twitterSources p.1 p.2

/-- The items a single scrape call contributes (its result on success,
nothing on failure). -/
def scrapeOk (scrape : String → Except String (List Content)) (ident : String) :
    List Content :=
  match scrape ident with
  | Except.ok cs => cs
  | Except.error _ => []

/-- The aggregate scraped list, as a pure function of the environment. -/
def scrapeResults (env : Env) : List Content :=
  (env.firecrawlSources.map (scrapeOk env.scrapeFire)).flatten
    ++ (env.twitterSources.map (scrapeOk env.scrapeTwitter)).flatten

/-! ## Rank stage (lines 156-165) -/

/-- Lines 158-165: call the ranker; on failure send the error
notification and degrade to the empty result list. -/
def rankStage (env : Env) (l : List Content) (s : RunState) :
    RunState × List RankResult :=
  let s := { s with rankCalls := s.rankCalls + 1 }
  match env.rank l with
  | Except.ok r => (s, r)
  | Except.error _ =>
      (addNotif s ⟨NotifyLevel.error, "内容排序失败", "请检查API额度"⟩, [])

/-- The rank result list that reaches the filter, as a pure function. -/
def rankOutcome (env : Env) (l : List Content) : List RankResult :=
  match env.rank l with
  | Except.ok r => r
  | Except.error _ => []

/-! ## Enrichment stage (lines 70-87 and 200-211) -/

/-- Model of `processContent` (lines 70-87): on success overwrite title, body and
keywords from the summary; on failure fall back per field, JS-truthiness
style (`x || fallback`): an empty title/body or an `undefined` keyword
list is replaced, anything else is kept.  The function is total: no
exception escapes and the item is never dropped. -/
def enrichOne (summarize : Content → Except String Summary) (c : Content) : Content :=
  match summarize c with
  | Except.ok sm =>
      { c with title := sm.title, content := sm.content,
               metadata := { c.metadata with keywords := some sm.keywords } }
  | Except.error _ =>
      { c with
        title := if c.title = "" then "无标题" else c.title,
        content := if c.content = "" then "内容处理失败" else c.content,
        metadata := { c.metadata with
                      keywords := some (c.metadata.keywords.getD []) } }

/-- Recursion core of the batch chunking, fuelled by the list length so
that it is structurally recursive (each step consumes at least one item,
so the fuel never runs out when it starts at the length). -/
def enrichBatchesAux : Nat → List Content → List (List Content)
  | _, [] => []
  | 0, l => [l]
  | fuel + 1, x :: xs => (x :: xs).take 10 :: enrichBatchesAux fuel ((x :: xs).drop 10)

/-- The chunking of the loop at lines 201-210: `slice(i, i + 10)` for
`i = 0, 10, 20, ...`. -/
def enrichBatches (l : List Content) : List (List Content) :=
  enrichBatchesAux l.length l

/-- One `Promise.all` batch: every item of the batch is summarized (one
summarize call each, concurrently in the source), then the stage moves
on. -/
def enrichBatch (env : Env) (batch : List Content) (s : RunState) :
    RunState × List Content :=
  ({ s with summarizeCalls := s.summarizeCalls + batch.length },
   batch.map (enrichOne env.summarize))

/-- Lines 200-211: the batches run strictly one after another. -/
def enrichStage (env : Env) (l : List Content) (s : RunState) :
    RunState × List Content :=
  (enrichBatches l).foldl
    (fun p batch =>
      let q := enrichBatch env batch p.1
      (q.1, p.2 ++ q.2))
    (s, [])

/-! ## Headline, cover image, publish (lines 213-276) -/

/-- Truncation of a string to `n` code points, modelling `slice(0, n)`. -/
def takeStr (n : Nat) (s : String) : String :=
  String.mk (s.data.take n)

/-- Lines 231-234: prefix the generated title with the date and the
fixed campaign label, then cut to 64. -/
def mkHeadline (dateStr raw : String) : String :=
  takeStr 64 (dateStr ++ " AI速递 | " ++ raw)

/-- Recursion core of JS `String.prototype.split` with a string
separator: leftmost non-overlapping matches, fuelled by the length of
the subject so that it is structurally recursive. -/
def splitSepAux (sep : List Char) : Nat → List Char → List (List Char)
  | _, [] => [[]]
  | 0, l => [l]
  | fuel + 1, x :: xs =>
    if sep.isPrefixOf (x :: xs) ∧ sep ≠ [] then
      [] :: splitSepAux sep fuel ((x :: xs).drop sep.length)
    else
      match splitSepAux sep fuel xs with
      | h :: t => (x :: h) :: t
      | [] => [[x]]

/-- JS `s.split(sep)` for a non-empty string separator. -/
def jsSplit (sep s : String) : List String :=
  (splitSepAux sep.data s.data.length s.data).map String.mk

/-- JS `s.trim()`: strip leading and trailing whitespace. -/
def jsTrim (s : String) : String :=
  String.mk (((s.data.dropWhile Char.isWhitespace).reverse.dropWhile
    Char.isWhitespace).reverse)

/-- Line 242: `summaryTitle.split(" | ")[1].trim().slice(0, 30)`.  When
the headline holds no separator, index 1 is `undefined` and `.trim()`
throws a TypeError. -/
def shortTitle (headline : String) : Except String String :=
  match (jsSplit " | " headline)[1]? with
  | some seg => Except.ok (takeStr 30 (jsTrim seg))
  | none => Except.error "TypeError: Cannot read properties of undefined"

/-- The final report string (lines 262-268), after the template's
whitespace trim. -/
def reportBody (total succ fail cont : Nat) (status : String) : String :=
  "工作流执行完成\n- 数据源: " ++ toString total ++ " 个\n- 成功: " ++ toString succ
    ++ " 个\n- 失败: " ++ toString fail ++ " 个\n- 内容: " ++ toString cont
    ++ " 条\n- 发布: " ++ status

def topCatch (s : RunState) (m : String) : RunState × Except String Unit :=
  (addNotif s ⟨NotifyLevel.error, "工作流失败", m⟩, Except.error m)

/-- Lines 239-276: cover image generation, upload, render, publish and
the final report.  Any oracle failure here falls through to the
top-level catch. -/
def publishPhase (env : Env) (headline : String) (topE : List Content)
    (s : RunState) : RunState × Except String Unit :=
  match shortTitle headline with
  | Except.error m => topCatch s m
  | Except.ok short =>
    let s := { s with imageCalls := s.imageCalls + 1 }
    match env.generateImage
        ⟨short, env.dateStr ++ " AI速递",
         "科技前沿资讯 | 人工智能新闻 | 每日AI快报 - " ++ short,
         "generate", 1⟩ with
    | Except.error m => topCatch s m
    | Except.ok imageUrl =>
      let s := { s with uploadCalls := s.uploadCalls + 1 }
      match env.uploadImage imageUrl with
      | Except.error m => topCatch s m
      | Except.ok mediaId =>
        let s := { s with renderCalls := s.renderCalls + 1 }
        match env.render topE with
        | Except.error m => topCatch s m
        | Except.ok doc =>
          let s := { s with publishCalls := s.publishCalls + 1,
                            publishedTitle := some headline }
          match env.publish doc headline headline mediaId with
          | Except.error m => topCatch s m
          | Except.ok res =>
            let body := reportBody
              (env.firecrawlSources.length + env.twitterSources.length)
              s.success s.failed s.contents res.status
            if s.failed > 0 then
              (addNotif s ⟨NotifyLevel.warning, "工作流完成(部分失败)", body⟩,
               Except.ok ())
            else
              (addNotif s ⟨NotifyLevel.success, "工作流完成", body⟩,
               Except.ok ())

/-- Lines 228-237: join the titles of ALL surviving items (the enriched
records for the truncated top slice, the untouched ones for the rest —
they are the same objects the enrichment mutated), call the title
generator, post-process into the headline. -/
def headlinePhase (env : Env) (topE rest : List Content) (s : RunState) :
    RunState × Except String Unit :=
  let joined := String.intercalate " | " ((topE ++ rest).map (fun c => c.title))
  let s := { s with generateTitleCalls := s.generateTitleCalls + 1,
                    titleInput := some joined }
  match env.generateTitle joined with
  | Except.error m => topCatch s m
  | Except.ok raw => publishPhase env (mkHeadline env.dateStr raw) topE s

/-- Model of `WeixinWorkflow.process` (lines 89-283). -/
def process (env : Env) : RunState × Except String Unit :=
  let s := addNotif initState ⟨NotifyLevel.info, "工作流开始", "开始执行内容抓取和处理"⟩
  match env.balance with
  | Except.error m => topCatch s m
  | Except.ok b =>
    let s := if b < 1 then addNotif s ⟨NotifyLevel.warning, "DeepSeek", "余额小于一元"⟩ else s
    let p := scrapeStage env s
    let allContents := p.2
    let s := { p.1 with contents := allContents.length }
    if allContents.length = 0 then
      (addNotif s ⟨NotifyLevel.error, "工作流终止", "未获取到任何内容"⟩, Except.ok ())
    else
      let q := rankStage env allContents s
      let sorted := sortStep (filterStep q.2 allContents)
      let top := truncStep env.articleNum sorted
      let rest := restStep env.articleNum sorted
      let r := enrichStage env top q.1
      headlinePhase env r.2 rest r.1

/-! ## Derived pure views of the pipeline -/

/-- The list entering the truncation of line 190: scraped items, score
join applied, sorted descending. -/
def pipelineSorted (env : Env) : List Content :=
  sortStep (filterStep (rankOutcome env (scrapeResults env)) (scrapeResults env))

def topAfterTrunc (env : Env) : List Content :=
  truncStep env.articleNum (pipelineSorted env)

def restAfterTrunc (env : Env) : List Content :=
  restStep env.articleNum (pipelineSorted env)

/-- The joined-titles string handed to `generateTitle` (line 230):
enriched titles for the truncated top slice, original titles for the
rest. -/
def headlineJoinInput (env : Env) : String :=
  String.intercalate " | "
    (((topAfterTrunc env).map (enrichOne env.summarize)
        ++ restAfterTrunc env).map (fun c => c.title))

/-! ## Helper lemmas: scrape stage -/

/-- The notification a single scrape call adds. -/
def scrapeNote (typ ident : String) : Except String (List Content) → List Notification
  | Except.ok _ => []
  | Except.error m =>
      [⟨NotifyLevel.warning, typ ++ "抓取失败", "源: " ++ ident ++ "\n错误: " ++ m⟩]

theorem scrapeSource_eq (f : String → Except String (List Content))
    (typ ident : String) (s : RunState) :
    scrapeSource f typ ident s =
      ({ s with scrapeCalls := s.scrapeCalls + 1,
                success := s.success + (match f ident with | Except.ok _ => 1 | Except.error _ => 0),
                failed := s.failed + (match f ident with | Except.ok _ => 0 | Except.error _ => 1),
                notifications := s.notifications ++ scrapeNote typ ident (f ident) },
       scrapeOk f ident) := by
  unfold scrapeSource scrapeOk scrapeNote
  cases f ident <;> simp [addNotif]

theorem scrapeList_proj (f : String → Except String (List Content)) (typ : String)
    (ids : List String) : ∀ (s : RunState) (acc : List Content),
    ((scrapeList f typ ids s acc).1.rankCalls = s.rankCalls)
    ∧ ((scrapeList f typ ids s acc).1.summarizeCalls = s.summarizeCalls)
    ∧ ((scrapeList f typ ids s acc).1.generateTitleCalls = s.generateTitleCalls)
    ∧ ((scrapeList f typ ids s acc).1.imageCalls = s.imageCalls)
    ∧ ((scrapeList f typ ids s acc).1.uploadCalls = s.uploadCalls)
    ∧ ((scrapeList f typ ids s acc).1.renderCalls = s.renderCalls)
    ∧ ((scrapeList f typ ids s acc).1.publishCalls = s.publishCalls)
    ∧ ((scrapeList f typ ids s acc).1.publishedTitle = s.publishedTitle)
    ∧ ((scrapeList f typ ids s acc).1.titleInput = s.titleInput)
    ∧ ((scrapeList f typ ids s acc).1.scrapeCalls = s.scrapeCalls + ids.length)
    ∧ ((scrapeList f typ ids s acc).2 = acc ++ (ids.map (scrapeOk f)).flatten) := by
  induction ids with
  | nil => intro s acc; simp [scrapeList]
  | cons i rest ih =>
    intro s acc
    simp only [scrapeList, scrapeSource_eq, List.map_cons, List.flatten_cons, List.length_cons]
    refine ⟨?_, ?_, ?_, ?_, ?_, ?_, ?_, ?_, ?_, ?_, ?_⟩ <;>
      simp [ih] <;> try omega

theorem scrapeList_sum (f : String → Except String (List Content)) (typ : String)
    (ids : List String) : ∀ (s : RunState) (acc : List Content),
    (scrapeList f typ ids s acc).1.success + (scrapeList f typ ids s acc).1.failed
      = s.success + s.failed + ids.length := by
  induction ids with
  | nil => intro s acc; simp [scrapeList]
  | cons i rest ih =>
    intro s acc
    simp only [scrapeList, scrapeSource_eq, List.length_cons]
    rw [ih]
    cases f i <;> simp <;> omega

theorem scrapeList_mono (f : String → Except String (List Content)) (typ : String)
    (ids : List String) : ∀ (s : RunState) (acc : List Content) (n : Notification),
    n ∈ s.notifications → n ∈ (scrapeList f typ ids s acc).1.notifications := by
  induction ids with
  | nil => intro s acc n h; simpa [scrapeList] using h
  | cons i rest ih =>
    intro s acc n h
    simp only [scrapeList, scrapeSource_eq]
    exact ih _ _ n (by simp [h])

theorem scrapeStage_proj (env : Env) (s : RunState) :
    ((scrapeStage env s).1.rankCalls = s.rankCalls)
    ∧ ((scrapeStage env s).1.summarizeCalls = s.summarizeCalls)
    ∧ ((scrapeStage env s).1.generateTitleCalls = s.generateTitleCalls)
    ∧ ((scrapeStage env s).1.imageCalls = s.imageCalls)
    ∧ ((scrapeStage env s).1.uploadCalls = s.uploadCalls)
    ∧ ((scrapeStage env s).1.renderCalls = s.renderCalls)
    ∧ ((scrapeStage env s).1.publishCalls = s.publishCalls)
    ∧ ((scrapeStage env s).1.publishedTitle = s.publishedTitle)
    ∧ ((scrapeStage env s).1.titleInput = s.titleInput)
    ∧ ((scrapeStage env s).1.scrapeCalls
        = s.scrapeCalls + env.firecrawlSources.length + env.twitterSources.length)
    ∧ ((scrapeStage env s).2 = scrapeResults env) := by
  unfold scrapeStage scrapeResults
  obtain ⟨a1, a2, a3, a4, a5, a6, a7, a8, a9, a10, a11⟩ :=
    scrapeList_proj env.scrapeFire "FireCrawl" env.firecrawlSources s []
  obtain ⟨b1, b2, b3, b4, b5, b6, b7, b8, b9, b10, b11⟩ :=
    scrapeList_proj env.scrapeTwitter "Twitter" env.twitterSources
      (scrapeList env.scrapeFire "FireCrawl" env.firecrawlSources s []).1
      (scrapeList env.scrapeFire "FireCrawl" env.firecrawlSources s []).2
  refine ⟨?_, ?_, ?_, ?_, ?_, ?_, ?_, ?_, ?_, ?_, ?_⟩
  · rw [b1, a1]
  · rw [b2, a2]
  · rw [b3, a3]
  · rw [b4, a4]
  · rw [b5, a5]
  · rw [b6, a6]
  · rw [b7, a7]
  · rw [b8, a8]
  · rw [b9, a9]
  · rw [b10, a10]
  · rw [b11, a11]; simp

theorem scrapeStage_sum (env : Env) (s : RunState) :
    (scrapeStage env s).1.success + (scrapeStage env s).1.failed
      = s.success + s.failed + (env.firecrawlSources.length + env.twitterSources.length) := by
  unfold scrapeStage
  rw [scrapeList_sum, scrapeList_sum]
  omega

theorem scrapeStage_mono (env : Env) (s : RunState) (n : Notification)
    (h : n ∈ s.notifications) : n ∈ (scrapeStage env s).1.notifications := by
  unfold scrapeStage
  exact scrapeList_mono _ _ _ _ _ _ (scrapeList_mono _ _ _ _ _ _ h)

/-! ## Helper lemmas: rank stage -/

/-- The notification the rank stage adds. -/
def rankNote : Except String (List RankResult) → List Notification
  | Except.ok _ => []
  | Except.error _ => [⟨NotifyLevel.error, "内容排序失败", "请检查API额度"⟩]

theorem rankStage_eq (env : Env) (l : List Content) (s : RunState) :
    rankStage env l s =
      ({ s with rankCalls := s.rankCalls + 1,
                notifications := s.notifications ++ rankNote (env.rank l) },
       rankOutcome env l) := by
  unfold rankStage rankOutcome rankNote
  cases env.rank l <;> simp [addNotif]

/-! ## Helper lemmas: enrichment stage -/

theorem enrichBatchesAux_flatten (fuel : Nat) : ∀ (l : List Content),
    l.length ≤ fuel → (enrichBatchesAux fuel l).flatten = l := by
  induction fuel with
  | zero =>
    intro l h
    cases l with
    | nil => rfl
    | cons x xs => simp at h
  | succ n ih =>
    intro l h
    cases l with
    | nil => rfl
    | cons x xs =>
      simp only [enrichBatchesAux, List.flatten_cons]
      rw [ih ((x :: xs).drop 10) (by simp at h ⊢; omega)]
      exact List.take_append_drop 10 (x :: xs)

theorem enrichBatches_flatten (l : List Content) : (enrichBatches l).flatten = l :=
  enrichBatchesAux_flatten l.length l le_rfl

theorem enrichBatchesAux_mem_len (fuel : Nat) : ∀ (l : List Content) (b : List Content),
    l.length ≤ fuel → b ∈ enrichBatchesAux fuel l → b.length ≤ 10 := by
  induction fuel with
  | zero =>
    intro l b h hb
    cases l with
    | nil => simp [enrichBatchesAux] at hb
    | cons x xs => simp at h
  | succ n ih =>
    intro l b h hb
    cases l with
    | nil => simp [enrichBatchesAux] at hb
    | cons x xs =>
      simp only [enrichBatchesAux, List.mem_cons] at hb
      rcases hb with hb | hb
      · subst hb
        simp [List.length_take]
      · exact ih _ b (by simp at h ⊢; omega) hb

theorem enrichBatches_mem_len (l b : List Content) (hb : b ∈ enrichBatches l) :
    b.length ≤ 10 :=
  enrichBatchesAux_mem_len l.length l b le_rfl hb

theorem enrichFold_eq (env : Env) (bs : List (List Content)) : ∀ (s : RunState)
    (acc : List Content),
    bs.foldl (fun p batch =>
        let q := enrichBatch env batch p.1
        (q.1, p.2 ++ q.2)) (s, acc)
      = ({ s with summarizeCalls := s.summarizeCalls + (bs.map List.length).sum },
         acc ++ (bs.map (List.map (enrichOne env.summarize))).flatten) := by
  induction bs with
  | nil => intro s acc; simp
  | cons b rest ih =>
    intro s acc
    rw [List.foldl_cons]
    refine (ih (enrichBatch env b s).1 (acc ++ (enrichBatch env b s).2)).trans ?_
    simp only [enrichBatch, List.map_cons, List.sum_cons, List.flatten_cons,
      Prod.mk.injEq]
    constructor
    · congr 1
      omega
    · simp

theorem enrichStage_eq (env : Env) (l : List Content) (s : RunState) :
    enrichStage env l s
      = ({ s with summarizeCalls := s.summarizeCalls + l.length },
         l.map (enrichOne env.summarize)) := by
  unfold enrichStage
  rw [enrichFold_eq]
  simp only [Prod.mk.injEq]
  constructor
  · congr 1
    have := congrArg List.length (enrichBatches_flatten l)
    simpa [List.length_flatten] using this
  · rw [← List.map_flatten, enrichBatches_flatten]
    simp

/-! ## Helper lemmas: filter and sort -/

theorem filterByRank_eq_innerJoinSpec (ranked : List RankResult) :
    ∀ (l : List Content), filterByRank ranked l = innerJoinSpec ranked l := by
  intro l
  induction l with
  | nil => rfl
  | cons c t ih =>
    simp only [filterByRank, innerJoinSpec, List.filterMap_cons, List.filter_cons] at *
    cases h : ranked.find? (fun r => r.id == c.id) with
    | none =>
      have hany : ranked.any (fun r => r.id == c.id) = false := by
        rw [List.any_eq_false]
        intro r hr
        simpa using List.find?_eq_none.mp h r hr
      simp [applyRank, h, hany, ih]
    | some r =>
      have hany : ranked.any (fun r => r.id == c.id) = true := by
        rw [List.any_eq_true]
        exact ⟨r, List.mem_of_find?_eq_some h, by simpa using List.find?_some h⟩
      simp [applyRank, h, hany, ih]

theorem filterStep_nonempty (ranked : List RankResult) (l : List Content)
    (h : ranked ≠ []) : filterStep ranked l = innerJoinSpec ranked l := by
  unfold filterStep
  cases ranked with
  | nil => exact absurd rfl h
  | cons r t => simp [filterByRank_eq_innerJoinSpec]

theorem filterStep_empty_ranked (l : List Content) : filterStep [] l = l := rfl

theorem insertDesc_unscored (c : Content) (hc : c.score = none) :
    ∀ (l : List Content), insertDesc c l = l ++ [c] := by
  intro l
  induction l with
  | nil => rfl
  | cons x xs ih =>
    have hg : scoreGt c x = false := by
      cases hx : x.score <;> simp [scoreGt, hc, hx]
    simp [insertDesc, hg, ih]

theorem sortFold_unscored (l : List Content) : ∀ (acc : List Content),
    (∀ c ∈ l, c.score = none) →
    List.foldl (fun acc c => insertDesc c acc) acc l = acc ++ l := by
  induction l with
  | nil => intro acc h; simp
  | cons c t ih =>
    intro acc h
    rw [List.foldl_cons, insertDesc_unscored c (h c (List.mem_cons_self c t)),
      ih (acc ++ [c]) (fun x hx => h x (List.mem_cons_of_mem c hx))]
    simp

theorem sortStep_unscored (l : List Content) (h : ∀ c ∈ l, c.score = none) :
    sortStep l = l := by
  have := sortFold_unscored l [] h
  simpa [sortStep] using this

/-! ## Helper lemmas: headline and publish phases -/

theorem takeStr_length_le (n : Nat) (s : String) : (takeStr n s).length ≤ n := by
  show (s.data.take n).length ≤ n
  simp [List.length_take]

theorem topCatch_fst (s : RunState) (m : String) :
    (topCatch s m).1 = addNotif s ⟨NotifyLevel.error, "工作流失败", m⟩ := rfl

theorem publishPhase_proj (env : Env) (hd : String) (topE : List Content)
    (s : RunState) :
    ((publishPhase env hd topE s).1.success = s.success)
    ∧ ((publishPhase env hd topE s).1.failed = s.failed)
    ∧ ((publishPhase env hd topE s).1.scrapeCalls = s.scrapeCalls)
    ∧ ((publishPhase env hd topE s).1.rankCalls = s.rankCalls)
    ∧ ((publishPhase env hd topE s).1.summarizeCalls = s.summarizeCalls)
    ∧ ((publishPhase env hd topE s).1.generateTitleCalls = s.generateTitleCalls)
    ∧ ((publishPhase env hd topE s).1.contents = s.contents)
    ∧ ((publishPhase env hd topE s).1.titleInput = s.titleInput) := by
  unfold publishPhase
  repeat' split
  all_goals simp [topCatch, addNotif, apply_ite]

theorem publishPhase_mono (env : Env) (hd : String) (topE : List Content)
    (s : RunState) (n : Notification) (hn : n ∈ s.notifications) :
    n ∈ (publishPhase env hd topE s).1.notifications := by
  unfold publishPhase
  repeat' split
  all_goals simp [topCatch, addNotif, apply_ite, hn]
  all_goals split <;> simp [hn]

theorem publishPhase_publishedTitle (env : Env) (hd : String) (topE : List Content)
    (s : RunState) :
    (publishPhase env hd topE s).1.publishedTitle = s.publishedTitle
    ∨ (publishPhase env hd topE s).1.publishedTitle = some hd := by
  unfold publishPhase
  repeat' split
  all_goals simp [topCatch, addNotif, apply_ite]

theorem headlinePhase_titleInput (env : Env) (topE rest : List Content)
    (s : RunState) :
    (headlinePhase env topE rest s).1.titleInput
      = some (String.intercalate " | " ((topE ++ rest).map (fun c => c.title))) := by
  simp only [headlinePhase]
  split
  · simp [topCatch, addNotif]
  · rw [(publishPhase_proj _ _ _ _).2.2.2.2.2.2.2]

theorem headlinePhase_proj (env : Env) (topE rest : List Content) (s : RunState) :
    ((headlinePhase env topE rest s).1.success = s.success)
    ∧ ((headlinePhase env topE rest s).1.failed = s.failed)
    ∧ ((headlinePhase env topE rest s).1.scrapeCalls = s.scrapeCalls)
    ∧ ((headlinePhase env topE rest s).1.rankCalls = s.rankCalls)
    ∧ ((headlinePhase env topE rest s).1.summarizeCalls = s.summarizeCalls)
    ∧ ((headlinePhase env topE rest s).1.contents = s.contents) := by
  simp only [headlinePhase]
  split
  · simp [topCatch, addNotif]
  · obtain ⟨p1, p2, p3, p4, p5, _p6, p7, _⟩ := publishPhase_proj env _ _ _
    exact ⟨p1, p2, p3, p4, p5, p7⟩

theorem headlinePhase_mono (env : Env) (topE rest : List Content) (s : RunState)
    (n : Notification) (hn : n ∈ s.notifications) :
    n ∈ (headlinePhase env topE rest s).1.notifications := by
  simp only [headlinePhase]
  split
  · simp [topCatch, addNotif, hn]
  · exact publishPhase_mono _ _ _ _ _ (by simpa [addNotif] using hn)

theorem headlinePhase_publishedTitle (env : Env) (topE rest : List Content)
    (s : RunState) :
    (headlinePhase env topE rest s).1.publishedTitle = s.publishedTitle
    ∨ ∃ raw, (headlinePhase env topE rest s).1.publishedTitle
        = some (mkHeadline env.dateStr raw) := by
  simp only [headlinePhase]
  cases hg : env.generateTitle
      (String.intercalate " | " ((topE ++ rest).map (fun c => c.title))) with
  | error m => left; simp [topCatch, addNotif]
  | ok raw =>
    rcases publishPhase_publishedTitle env (mkHeadline env.dateStr raw) topE
        { s with generateTitleCalls := s.generateTitleCalls + 1,
                 titleInput := some (String.intercalate " | "
                   ((topE ++ rest).map (fun c => c.title))) } with h | h
    · left; simpa using h
    · right; exact ⟨raw, by simpa using h⟩

/-! ## Shape of a `process` run -/

/-- State right after the opening info notification (line 92). -/
def startState : RunState :=
  addNotif initState ⟨NotifyLevel.info, "工作流开始", "开始执行内容抓取和处理"⟩

/-- State after the balance check (lines 96-100). -/
def balanceState (b : ℚ) : RunState :=
  if b < 1 then addNotif startState ⟨NotifyLevel.warning, "DeepSeek", "余额小于一元"⟩
  else startState

/-- State after scraping, with the `contents` counter set (line 148). -/
def afterScrapeState (env : Env) (b : ℚ) : RunState :=
  { (scrapeStage env (balanceState b)).1 with contents := (scrapeResults env).length }

def afterRankState (env : Env) (b : ℚ) : RunState :=
  (rankStage env (scrapeResults env) (afterScrapeState env b)).1

def afterEnrichState (env : Env) (b : ℚ) : RunState :=
  { afterRankState env b with
    summarizeCalls := (afterRankState env b).summarizeCalls + (topAfterTrunc env).length }

theorem balanceState_proj (b : ℚ) :
    ((balanceState b).success = 0) ∧ ((balanceState b).failed = 0)
    ∧ ((balanceState b).scrapeCalls = 0) ∧ ((balanceState b).rankCalls = 0)
    ∧ ((balanceState b).summarizeCalls = 0) ∧ ((balanceState b).generateTitleCalls = 0)
    ∧ ((balanceState b).imageCalls = 0) ∧ ((balanceState b).uploadCalls = 0)
    ∧ ((balanceState b).renderCalls = 0) ∧ ((balanceState b).publishCalls = 0)
    ∧ ((balanceState b).titleInput = none) ∧ ((balanceState b).publishedTitle = none) := by
  unfold balanceState startState
  refine ⟨?_, ?_, ?_, ?_, ?_, ?_, ?_, ?_, ?_, ?_, ?_, ?_⟩ <;>
    simp [addNotif, initState, apply_ite]

theorem process_error_eq (env : Env) (m : String)
    (hb : env.balance = Except.error m) :
    process env = topCatch startState m := by
  unfold process
  rw [hb]
  rfl

theorem process_empty_eq (env : Env) (b : ℚ) (hb : env.balance = Except.ok b)
    (hz : scrapeResults env = []) :
    process env
      = (addNotif { (scrapeStage env (balanceState b)).1 with contents := 0 }
          ⟨NotifyLevel.error, "工作流终止", "未获取到任何内容"⟩, Except.ok ()) := by
  unfold process
  rw [hb]
  have hsnd := (scrapeStage_proj env (balanceState b)).2.2.2.2.2.2.2.2.2.2
  simp only [balanceState, startState] at hsnd ⊢
  rw [hsnd, hz]
  simp

theorem process_main_eq (env : Env) (b : ℚ) (hb : env.balance = Except.ok b)
    (hne : scrapeResults env ≠ []) :
    process env
      = headlinePhase env ((topAfterTrunc env).map (enrichOne env.summarize))
          (restAfterTrunc env) (afterEnrichState env b) := by
  unfold process
  rw [hb]
  have hsnd := (scrapeStage_proj env (balanceState b)).2.2.2.2.2.2.2.2.2.2
  simp only [balanceState, startState] at hsnd
  simp only [hsnd]
  rw [if_neg (by simpa using hne)]
  rw [rankStage_eq, enrichStage_eq]
  simp only [afterEnrichState, afterRankState, afterScrapeState, topAfterTrunc,
    restAfterTrunc, pipelineSorted, rankOutcome, balanceState, startState,
    rankStage_eq]

/-! ## Concrete fixtures for worked examples and witnesses -/

def exMeta : Metadata := ⟨some []⟩

def exA : Content := ⟨"A", "titleA", "bodyA", "urlA", "dateA", exMeta, [], none⟩

def exB : Content := ⟨"B", "titleB", "bodyB", "urlB", "dateB", exMeta, [], none⟩

def exC : Content := ⟨"C", "titleC", "bodyC", "urlC", "dateC", exMeta, [], none⟩

/-- Rank results of the worked example: A scored 0.9, B scored 0.4. -/
def exRanked : List RankResult := [⟨"A", mkRat 9 10⟩, ⟨"B", mkRat 2 5⟩]

/-- A summarizer oracle that always fails. -/
def exFailSummarize : Content → Except String Summary :=
  fun _ => Except.error "boom"

/-! ## Claims -/

/-- C1: when the rank results are non-empty the filter step is a strict
inner join on identifier — an item survives iff some rank result carries
its id, survivors get the matched score, unmatched items are dropped
(`filterStep = innerJoinSpec`); and on scraped items `{A, B, C}` with
rank results `{A: 0.9, B: 0.4}` the filtered list is exactly `[A, B]`
with those scores, in that order after the descending sort. -/
theorem c1_filter_strict_inner_join :
    (∀ (ranked : List RankResult) (l : List Content), ranked ≠ [] →
      filterStep ranked l = innerJoinSpec ranked l)
    ∧ sortStep (filterStep exRanked [exA, exB, exC])
        = [{ exA with score := some (mkRat 9 10) },
           { exB with score := some (mkRat 2 5) }] :=
  ⟨filterStep_nonempty, by decide⟩

theorem c1_witness :
    filterStep exRanked [exA, exB, exC] = innerJoinSpec exRanked [exA, exB, exC] :=
  c1_filter_strict_inner_join.1 exRanked [exA, exB, exC] (by decide)

/-- C2: a failed summarize call is isolated to its item — `enrichOne`
is total (no exception escapes), the item keeps its identity, the title
is kept unless empty (then the fixed "无标题" placeholder), the body is
kept unless empty (then "内容处理失败"), the keyword list is kept unless
unset (then empty) — and the enrichment stage maps every item, dropping
none. -/
theorem c2_enrich_failure_isolated (summarize : Content → Except String Summary)
    (c : Content) (m : String) (h : summarize c = Except.error m) :
    ((enrichOne summarize c).id = c.id)
    ∧ ((enrichOne summarize c).title = (if c.title = "" then "无标题" else c.title))
    ∧ ((enrichOne summarize c).content
        = (if c.content = "" then "内容处理失败" else c.content))
    ∧ ((enrichOne summarize c).metadata.keywords = some (c.metadata.keywords.getD []))
    ∧ (∀ (env : Env) (l : List Content) (s : RunState),
        (enrichStage env l s).2 = l.map (enrichOne env.summarize)) := by
  refine ⟨?_, ?_, ?_, ?_, fun env l s => by rw [enrichStage_eq]⟩
  · simp [enrichOne, h]
  · simp [enrichOne, h]
  · simp [enrichOne, h]
  · cases hk : c.metadata.keywords <;> simp [enrichOne, h, hk]

theorem c2_witness :
    (enrichOne exFailSummarize exA).title
      = (if exA.title = "" then "无标题" else exA.title) :=
  (c2_enrich_failure_isolated exFailSummarize exA "boom" rfl).2.1

/-- C4: when the rank call throws, the stage degrades — the error
notification is sent, the rank-result list entering the filter is empty,
and the list entering truncation (filter then sort) is the original
scraped list unchanged, scores still unset. -/
theorem c4_rank_failure_degrades (env : Env) (l : List Content) (s : RunState)
    (m : String) (hr : env.rank l = Except.error m)
    (hu : ∀ c ∈ l, c.score = none) :
    ((rankStage env l s).2 = [])
    ∧ ((⟨NotifyLevel.error, "内容排序失败", "请检查API额度"⟩ : Notification)
        ∈ (rankStage env l s).1.notifications)
    ∧ (sortStep (filterStep (rankStage env l s).2 l) = l) := by
  have h2 : (rankStage env l s).2 = [] := by
    rw [rankStage_eq]
    simp [rankOutcome, hr]
  refine ⟨h2, ?_, ?_⟩
  · rw [rankStage_eq]
    simp [rankNote, hr]
  · rw [h2, filterStep_empty_ranked, sortStep_unscored l hu]

/-- A fully successful collaborator environment used by witnesses. -/
def exEnvBase : Env :=
  { balance := Except.ok 5
    firecrawlSources := ["f1"]
    twitterSources := ["t1"]
    scrapeFire := fun _ => Except.ok [exA]
    scrapeTwitter := fun _ => Except.ok [exB]
    rank := fun _ => Except.ok [⟨"A", 1⟩, ⟨"B", mkRat 1 2⟩]
    articleNum := some 1
    summarize := fun _ => Except.ok ⟨"ENRICHED", "body", ["kw"]⟩
    generateTitle := fun _ => Except.ok "Generated Headline"
    dateStr := "2025/1/1"
    generateImage := fun _ => Except.ok "img-url"
    uploadImage := fun _ => Except.ok "media-1"
    render := fun _ => Except.ok "doc"
    publish := fun _ _ _ _ => Except.ok ⟨"published"⟩ }

def exEnvRankFail : Env := { exEnvBase with rank := fun _ => Except.error "api" }

def exEnvNoItems : Env :=
  { exEnvBase with scrapeFire := fun _ => Except.ok [],
                   scrapeTwitter := fun _ => Except.ok [] }

theorem c4_witness :
    sortStep (filterStep (rankStage exEnvRankFail [exA, exB] initState).2 [exA, exB])
      = [exA, exB] :=
  (c4_rank_failure_degrades exEnvRankFail [exA, exB] initState "api" rfl
    (by decide)).2.2

/-- C5: for configured source lists of sizes `f` and `t`, the scrape
stage makes exactly `f + t` scrape calls (the loops are strictly
sequential folds), and afterwards the success and failure counters sum
to `f + t` on top of their starting values — each call increments
exactly one of the two. -/
theorem c5_scrape_call_accounting (env : Env) (s : RunState) :
    ((scrapeStage env s).1.scrapeCalls
      = s.scrapeCalls + (env.firecrawlSources.length + env.twitterSources.length))
    ∧ ((scrapeStage env s).1.success + (scrapeStage env s).1.failed
      = s.success + s.failed + (env.firecrawlSources.length + env.twitterSources.length))
    ∧ ((scrapeStage env initState).1.success + (scrapeStage env initState).1.failed
      = env.firecrawlSources.length + env.twitterSources.length) := by
  refine ⟨?_, scrapeStage_sum env s, ?_⟩
  · have h := (scrapeStage_proj env s).2.2.2.2.2.2.2.2.2.1
    omega
  · have h := scrapeStage_sum env initState
    simpa [initState] using h

/-- C7: the enrichment scheduler chunks the top-N list into batches of
at most 10 (`slice(i, i + 10)`), the batches concatenate back to the
whole list (so batches run one after another and every item is
processed), the stage makes one summarize call per item, and 25 items
yield batches of sizes exactly 10, 10, 5 — so never more than 10
summarize calls are in flight at once. -/
theorem c7_enrichment_batch_bound :
    (∀ (l : List Content), (enrichBatches l).flatten = l)
    ∧ (∀ (l b : List Content), b ∈ enrichBatches l → b.length ≤ 10)
    ∧ (∀ (env : Env) (l : List Content) (s : RunState),
        (enrichStage env l s).2 = l.map (enrichOne env.summarize)
        ∧ (enrichStage env l s).1.summarizeCalls = s.summarizeCalls + l.length)
    ∧ ((enrichBatches (List.replicate 25 exA)).map List.length = [10, 10, 5]) :=
  ⟨enrichBatches_flatten, enrichBatches_mem_len,
   fun env l s => by rw [enrichStage_eq]; exact ⟨rfl, rfl⟩, by decide⟩

theorem c7_witness :
    ((List.replicate 25 exA).take 10 ∈ enrichBatches (List.replicate 25 exA))
    ∧ ((List.replicate 25 exA).take 10).length ≤ 10 :=
  ⟨by decide, c7_enrichment_batch_bound.2.1 (List.replicate 25 exA) _ (by decide)⟩

/-- C3: when the aggregate scraped list is empty, the run returns
without raising (`Except.ok`), the "工作流终止" error notification is
sent, and none of the rank, enrichment, headline, image, upload, render
or publish collaborators is ever called — all their call counters are
zero. -/
theorem c3_empty_scrape_graceful (env : Env) (b : ℚ)
    (hb : env.balance = Except.ok b) (hz : scrapeResults env = []) :
    ((process env).2 = Except.ok ())
    ∧ ((process env).1.rankCalls = 0)
    ∧ ((process env).1.summarizeCalls = 0)
    ∧ ((process env).1.generateTitleCalls = 0)
    ∧ ((process env).1.imageCalls = 0)
    ∧ ((process env).1.uploadCalls = 0)
    ∧ ((process env).1.renderCalls = 0)
    ∧ ((process env).1.publishCalls = 0)
    ∧ ((⟨NotifyLevel.error, "工作流终止", "未获取到任何内容"⟩ : Notification)
        ∈ (process env).1.notifications) := by
  rw [process_empty_eq env b hb hz]
  obtain ⟨p1, p2, p3, p4, p5, p6, p7, p8, p9, p10, p11⟩ :=
    scrapeStage_proj env (balanceState b)
  obtain ⟨b1, b2, b3, b4, b5, b6, b7, b8, b9, b10, b11, b12⟩ := balanceState_proj b
  refine ⟨rfl, ?_, ?_, ?_, ?_, ?_, ?_, ?_, ?_⟩ <;>
    simp [addNotif, p1, p2, p3, p4, p5, p6, p7, b4, b5, b6, b7, b8, b9, b10]

theorem c3_witness :
    ((process exEnvNoItems).2 = Except.ok ())
    ∧ ((process exEnvNoItems).1.publishCalls = 0) :=
  ⟨(c3_empty_scrape_graceful exEnvNoItems 5 rfl rfl).1,
   (c3_empty_scrape_graceful exEnvNoItems 5 rfl rfl).2.2.2.2.2.2.2.1⟩

/-- C6: the published headline is the date plus the fixed " AI速递 | "
campaign label prefixed to the generated title and truncated to 64 code
points; whatever headline the run publishes is never longer than 64
characters, regardless of the generated title's length. -/
theorem c6_headline_capped_at_64 :
    (∀ (d raw : String), mkHeadline d raw = takeStr 64 (d ++ " AI速递 | " ++ raw)
      ∧ (mkHeadline d raw).length ≤ 64)
    ∧ (∀ (env : Env) (hd : String),
        (process env).1.publishedTitle = some hd → hd.length ≤ 64) := by
  constructor
  · intro d raw
    exact ⟨rfl, takeStr_length_le 64 _⟩
  · intro env hd h
    cases hbe : env.balance with
    | error m =>
      rw [process_error_eq env m hbe] at h
      simp [topCatch, addNotif, startState, initState] at h
    | ok b =>
      by_cases hz : scrapeResults env = []
      · rw [process_empty_eq env b hbe hz] at h
        have p8 := (scrapeStage_proj env (balanceState b)).2.2.2.2.2.2.2.1
        have b12 := (balanceState_proj b).2.2.2.2.2.2.2.2.2.2.2
        simp [addNotif, p8, b12] at h
      · rw [process_main_eq env b hbe hz] at h
        have hnone : (afterEnrichState env b).publishedTitle = none := by
          have p8 := (scrapeStage_proj env (balanceState b)).2.2.2.2.2.2.2.1
          have b12 := (balanceState_proj b).2.2.2.2.2.2.2.2.2.2.2
          simp [afterEnrichState, afterRankState, rankStage_eq, afterScrapeState,
            p8, b12]
        rcases headlinePhase_publishedTitle env
            ((topAfterTrunc env).map (enrichOne env.summarize))
            (restAfterTrunc env) (afterEnrichState env b) with hh | ⟨raw, hh⟩
        · rw [hh, hnone] at h
          exact absurd h (by simp)
        · rw [hh] at h
          have : hd = mkHeadline env.dateStr raw := by
            injection h with h'
            exact h'.symm
          rw [this]
          exact takeStr_length_le 64 _

theorem c6_witness :
    ("2025/1/1 AI速递 | Generated Headline" : String).length ≤ 64 :=
  c6_headline_capped_at_64.2 exEnvBase "2025/1/1 AI速递 | Generated Headline"
    (by decide)

/-- C8: because enrichment overwrites the shared item records in place,
the joined-titles string handed to the title generator is the enriched
titles for the truncated top slice followed by the original titles of
the remaining sorted items (`headlineJoinInput`), and in a concrete run
it differs from the join of the original titles of all items. -/
theorem c8_headline_input_mixes_titles (env : Env) (b : ℚ)
    (hb : env.balance = Except.ok b) (hne : scrapeResults env ≠ []) :
    ((process env).1.titleInput = some (headlineJoinInput env))
    ∧ (headlineJoinInput env
        = String.intercalate " | "
            (((topAfterTrunc env).map (enrichOne env.summarize)
                ++ restAfterTrunc env).map (fun c => c.title)))
    ∧ ((process exEnvBase).1.titleInput = some "ENRICHED | titleB")
    ∧ ("ENRICHED | titleB"
        ≠ String.intercalate " | " ((pipelineSorted exEnvBase).map (fun c => c.title))) := by
  refine ⟨?_, rfl, by decide, by decide⟩
  rw [process_main_eq env b hb hne, headlinePhase_titleInput]
  rfl

theorem c8_witness :
    (process exEnvBase).1.titleInput = some (headlineJoinInput exEnvBase) :=
  (c8_headline_input_mixes_titles exEnvBase 5 rfl (by decide)).1

/-- C9: the DeepSeek balance query runs before any scraping — if it
throws, the exception reaches the top-level handler, which sends the
"工作流失败" error notification and re-raises, and no scrape call was
made; if it returns a balance below 1.0 only the "DeepSeek" warning is
sent and the run continues into scraping (all `f + t` scrape calls
happen). -/
theorem c9_balance_check_gate (env : Env) :
    (∀ m, env.balance = Except.error m →
      ((process env).2 = Except.error m)
      ∧ ((process env).1.scrapeCalls = 0)
      ∧ ((⟨NotifyLevel.error, "工作流失败", m⟩ : Notification)
          ∈ (process env).1.notifications))
    ∧ (∀ b, env.balance = Except.ok b → b < 1 →
      ((⟨NotifyLevel.warning, "DeepSeek", "余额小于一元"⟩ : Notification)
          ∈ (process env).1.notifications)
      ∧ ((process env).1.scrapeCalls
          = env.firecrawlSources.length + env.twitterSources.length)) := by
  constructor
  · intro m hm
    rw [process_error_eq env m hm]
    refine ⟨rfl, rfl, ?_⟩
    simp [topCatch, addNotif]
  · intro b hb hlt
    have hwarm : (⟨NotifyLevel.warning, "DeepSeek", "余额小于一元"⟩ : Notification)
        ∈ (balanceState b).notifications := by
      simp [balanceState, if_pos hlt, addNotif]
    have b3 := (balanceState_proj b).2.2.1
    have p10 := (scrapeStage_proj env (balanceState b)).2.2.2.2.2.2.2.2.2.1
    by_cases hz : scrapeResults env = []
    · rw [process_empty_eq env b hb hz]
      constructor
      · simp only [addNotif]
        simp only [List.mem_append]
        exact Or.inl (scrapeStage_mono env (balanceState b) _ hwarm)
      · simp [addNotif, p10, b3]
    · rw [process_main_eq env b hb hz]
      constructor
      · apply headlinePhase_mono
        simp only [afterEnrichState, afterRankState, rankStage_eq, afterScrapeState]
        simp only [addNotif, List.mem_append]
        exact Or.inl (scrapeStage_mono env (balanceState b) _ hwarm)
      · have hp := (headlinePhase_proj env
          ((topAfterTrunc env).map (enrichOne env.summarize))
          (restAfterTrunc env) (afterEnrichState env b)).2.2.1
        rw [hp]
        simp [afterEnrichState, afterRankState, rankStage_eq, afterScrapeState,
          p10, b3]

def exEnvBalanceFail : Env := { exEnvBase with balance := Except.error "boom" }

def exEnvLowBalance : Env := { exEnvBase with balance := Except.ok (mkRat 1 2) }

theorem c9_witness :
    (((process exEnvBalanceFail).2 = Except.error "boom")
      ∧ ((process exEnvBalanceFail).1.scrapeCalls = 0)
      ∧ ((⟨NotifyLevel.error, "工作流失败", "boom"⟩ : Notification)
          ∈ (process exEnvBalanceFail).1.notifications))
    ∧ (((⟨NotifyLevel.warning, "DeepSeek", "余额小于一元"⟩ : Notification)
          ∈ (process exEnvLowBalance).1.notifications)
      ∧ ((process exEnvLowBalance).1.scrapeCalls = 2)) :=
  ⟨(c9_balance_check_gate exEnvBalanceFail).1 "boom" rfl,
   (c9_balance_check_gate exEnvLowBalance).2 (mkRat 1 2) rfl (by decide)⟩

/-- C10: when the configured ARTICLE_NUM is absent, `slice(0, undefined)`
keeps the whole list — the truncation step is the identity, nothing is
cut off after the sort, and the run summarizes every surviving filtered
item instead of failing or truncating to a default. -/
theorem c10_articleNum_absent_keeps_all (env : Env) (b : ℚ)
    (hn : env.articleNum = none) (hb : env.balance = Except.ok b)
    (hne : scrapeResults env ≠ []) :
    (∀ (l : List Content), truncStep none l = l)
    ∧ (topAfterTrunc env = pipelineSorted env)
    ∧ (restAfterTrunc env = [])
    ∧ ((process env).1.summarizeCalls = (pipelineSorted env).length) := by
  refine ⟨fun l => rfl, by simp [topAfterTrunc, truncStep, hn],
    by simp [restAfterTrunc, restStep, hn], ?_⟩
  rw [process_main_eq env b hb hne]
  have hp := (headlinePhase_proj env
    ((topAfterTrunc env).map (enrichOne env.summarize))
    (restAfterTrunc env) (afterEnrichState env b)).2.2.2.2.1
  rw [hp]
  have b5 := (balanceState_proj b).2.2.2.2.1
  have p2 := (scrapeStage_proj env (balanceState b)).2.1
  simp [afterEnrichState, afterRankState, rankStage_eq, afterScrapeState,
    p2, b5, topAfterTrunc, truncStep, hn]

def exEnvNoLimit : Env := { exEnvBase with articleNum := none }

theorem c10_witness :
    (process exEnvNoLimit).1.summarizeCalls = (pipelineSorted exEnvNoLimit).length :=
  (c10_articleNum_absent_keeps_all exEnvNoLimit 5 rfl rfl (by decide)).2.2.2
